import Mathlib

/-!
Shallow embedding of `src/LoginSession.ts` (node-steam-session).

The TypeScript class `LoginSession` is modelled as a pure record
`LoginSession`; methods that mutate `this` become functions returning the
updated record.  Throwing methods return an `Except`-style result together
with the state as it stands at the point of return or throw.  External
collaborators (the `AuthenticationClient` handler, the JWT decoder, the
`SteamID` parser) are modelled as oracles: a JWT is a record carrying the
outcome of `decodeJwt` (`decodeOk`, the decoded `sub` claim) and of
`new SteamID(sub)` (`subParses`); the handler is a record of the outcomes
its calls produce during one evaluation.  Observable side effects
(`this.emit(...)` of lifecycle events, `setImmediate`/`setTimeout`
scheduling, collaborator calls) are recorded in an effect list; `debug`
trace emissions are not modelled.  JavaScript truthiness of optional
strings (`undefined`/`''` falsy) is modelled by `jsTruthyStr`.
-/

namespace SteamSession

/-- Guard challenge types (`EAuthSessionGuardType`); `Unknown n` stands for
any numeric value outside the cases the switch statement handles. -/
inductive EAuthSessionGuardType where
  | None
  | MachineToken
  | DeviceCode
  | DeviceConfirmation
  | EmailCode
  | EmailConfirmation
  | Unknown (n : Nat)
deriving Repr, DecidableEq

/-- EResult codes used by the session logic (`EResult.OK`,
`EResult.InvalidLoginAuthCode`, `EResult.TwoFactorCodeMismatch`). -/
def EResult.OK : Nat := 1

def EResult.InvalidLoginAuthCode : Nat := 65

def EResult.TwoFactorCodeMismatch : Nat := 88

/-- A Steam JWT as seen through the `decodeJwt` / `new SteamID` collaborators:
`decodeOk` is whether `decodeJwt` succeeds, `sub` is the decoded subject
claim, and `subParses` is whether `new SteamID(sub)` succeeds. -/
structure SteamJwt where
  decodeOk : Bool
  sub : String
  subParses : Bool
deriving Repr, DecidableEq

/-- One entry of `startSessionResponse.allowedConfirmations`. -/
structure GuardChallenge where
  type : EAuthSessionGuardType
  message : Option String
deriving Repr, DecidableEq

/-- The stored `_startSessionResponse`
(`StartAuthSessionWithCredentialsResponse`). -/
structure StartAuthSessionWithCredentialsResponse where
  clientId : String
  steamId : String
  allowedConfirmations : List GuardChallenge
  pollInterval : Nat
deriving Repr, DecidableEq

/-- The response of one `pollLoginStatus` call. Token fields are `SteamJwt`
oracles; `none` models an absent (falsy) field. -/
structure PollResponse where
  newClientId : Option String
  hadRemoteInteraction : Bool
  accessToken : Option SteamJwt
  refreshToken : Option SteamJwt
  accountName : Option String
deriving Repr, DecidableEq

/-- Response of `checkMachineAuthOrSendCodeEmail`. -/
structure CheckMachineAuthResponse where
  result : Nat
deriving Repr, DecidableEq

/-- A JavaScript error thrown by a collaborator call; `eresult` is the
optional `ex.eresult` property (absent on non-EResult errors). -/
structure JsError where
  eresult : Option Nat
deriving Repr, DecidableEq

deriving instance DecidableEq for Except

/-- Oracle for the `AuthenticationClient` handler: the outcome each
collaborator call produces during the run under analysis. -/
structure AuthenticationClient where
  startSessionOutcome : StartAuthSessionWithCredentialsResponse
  submitSteamGuardCodeOutcome : Except JsError Unit
  checkMachineAuthOutcome : Except JsError CheckMachineAuthResponse
  pollOutcome : Except JsError PollResponse
deriving Repr, DecidableEq

/-- One entry of the `validActions` array returned to the caller. -/
structure StartSessionResponseValidAction where
  type : EAuthSessionGuardType
  detail : Option String
deriving Repr, DecidableEq

/-- The value resolved by `startWithCredentials`; `validActions = none`
models the `{actionRequired: false}` object that has no such property. -/
structure StartSessionResponse where
  actionRequired : Bool
  validActions : Option (List StartSessionResponseValidAction)
deriving Repr, DecidableEq

/-- Argument object of `startWithCredentials`. Only the fields the session
logic stores or forwards are modelled. -/
structure StartLoginSessionWithCredentialsDetails where
  accountName : String
  password : String
  steamGuardCode : Option String
  steamGuardMachineToken : Option String
deriving Repr, DecidableEq

/-- The mutable state of a `LoginSession` object.  `_pollTimer` models the
truthiness of the `_pollTimer` field (it holds a `Timeout` handle once one
has ever been assigned; `clearTimeout` never nulls the field), while
`_pollTimerPending` is the runtime fact that a scheduled timeout is
currently pending (set by `setTimeout`, cleared by `clearTimeout` or by
the timer firing). -/
structure LoginSession where
  loginTimeout : Nat
  platformType : Nat
  accountName : Option String
  _accessToken : Option SteamJwt
  _refreshToken : Option SteamJwt
  _steamGuardCode : Option String
  _steamGuardMachineToken : Option String
  _startSessionResponse : Option StartAuthSessionWithCredentialsResponse
  _hadRemoteInteraction : Bool
  _pollingStartedTime : Option Nat
  _pollTimer : Bool
  _pollTimerPending : Bool
  _pollingCanceled : Bool
deriving Repr, DecidableEq

/-- State produced by the constructor (`loginTimeout = 30000`, everything
else unset). -/
def newLoginSession (platformType : Nat) : LoginSession :=
  { loginTimeout := 30000
    platformType := platformType
    accountName := none
    _accessToken := none
    _refreshToken := none
    _steamGuardCode := none
    _steamGuardMachineToken := none
    _startSessionResponse := none
    _hadRemoteInteraction := false
    _pollingStartedTime := none
    _pollTimer := false
    _pollTimerPending := false
    _pollingCanceled := false }

/-- JavaScript truthiness of an optional string (`undefined` and `''` are
falsy). -/
def jsTruthyStr (s : Option String) : Bool :=
  match s with
  | some v => v ≠ ""
  | none => false

/-- The optional string itself when truthy, `none` otherwise (models
`if (x) target.field = x`). -/
def jsStrOrNone (s : Option String) : Option String :=
  if jsTruthyStr s then s else none

/-- JavaScript `a || b` on an optional string versus a string. -/
def jsOrStr (a : Option String) (b : String) : String :=
  match a with
  | some v => if v ≠ "" then v else b
  | none => b

/-- Errors thrown while assigning `accessToken` / `refreshToken`. -/
inductive SetTokenError where
  /-- `decodeJwt` threw (on the candidate or on the stored other token). -/
  | malformedToken
  /-- `new SteamID(decoded.sub)` threw: "Not a valid Steam access token". -/
  | invalidSteamID
  /-- "Token is for a different account. ..." (mismatch with the stored
  start-session response's `steamId`). -/
  | startResponseMismatch
  /-- mismatch with the subject of the other already-set token. -/
  | otherTokenMismatch
deriving Repr, DecidableEq

/-- The condition `this._startSessionResponse && this._startSessionResponse.steamId
&& decoded.sub != this._startSessionResponse.steamId` shared by both token
setters. -/
def startResponseSubMismatch (s : LoginSession) (sub : String) : Bool :=
  match s._startSessionResponse with
  | some r => r.steamId ≠ "" && sub ≠ r.steamId
  | none => false

/-- The `set accessToken(token)` accessor (LoginSession.ts lines 70-95).
`none` models a falsy argument. On a throw, no assignment has happened. -/
def setAccessToken (s : LoginSession) (token : Option SteamJwt) :
    Except SetTokenError LoginSession :=
  match token with
  | none => .ok { s with _accessToken := none }
  | some t =>
    if !t.decodeOk then .error .malformedToken
    else if !t.subParses then .error .invalidSteamID
    else if startResponseSubMismatch s t.sub then .error .startResponseMismatch
    else
      match s._refreshToken with
      | some rt =>
        if !rt.decodeOk then .error .malformedToken
        else if rt.sub ≠ t.sub then .error .otherTokenMismatch
        else .ok { s with _accessToken := some t }
      | none => .ok { s with _accessToken := some t }

/-- The `set refreshToken(token)` accessor (LoginSession.ts lines 97-122). -/
def setRefreshToken (s : LoginSession) (token : Option SteamJwt) :
    Except SetTokenError LoginSession :=
  match token with
  | none => .ok { s with _refreshToken := none }
  | some t =>
    if !t.decodeOk then .error .malformedToken
    else if !t.subParses then .error .invalidSteamID
    else if startResponseSubMismatch s t.sub then .error .startResponseMismatch
    else
      match s._accessToken with
      | some at_ =>
        if !at_.decodeOk then .error .malformedToken
        else if at_.sub ≠ t.sub then .error .otherTokenMismatch
        else .ok { s with _refreshToken := some t }
      | none => .ok { s with _refreshToken := some t }

/-- Run the access-token assignment as a statement: on a throw the session
is unchanged and the error is reported alongside. -/
def trySetAccessToken (s : LoginSession) (token : Option SteamJwt) :
    LoginSession × Option SetTokenError :=
  match setAccessToken s token with
  | .ok s' => (s', none)
  | .error e => (s, some e)

/-- Run the refresh-token assignment as a statement. -/
def trySetRefreshToken (s : LoginSession) (token : Option SteamJwt) :
    LoginSession × Option SetTokenError :=
  match setRefreshToken s token with
  | .ok s' => (s', none)
  | .error e => (s, some e)

/-- Observable side effects of a run: lifecycle event emissions (`debug`
events are not modelled), scheduling of `_doPoll` via `setImmediate` or
`setTimeout`, and the collaborator calls issued. -/
inductive Effect where
  | emitPolling
  | emitTimeout
  | emitRemoteInteraction
  | emitAuthenticated
  | emitError
  | callEncryptPassword
  | callStartSession
  | callSubmitCode (code : String)
  | callCheckMachineAuth (machineAuthToken : Option String)
  | callPollStatus
  | schedulePollImmediate
  | schedulePollTimer (delayMs : Nat)
deriving Repr, DecidableEq

/-- Errors thrown by session methods. -/
inductive SessionError where
  /-- a token setter threw. -/
  | setToken (e : SetTokenError)
  /-- "Login session has not been started yet" (`_verifyStarted`). -/
  | notStarted
  /-- "No Steam Guard code is needed for this login attempt". -/
  | noGuardNeeded
  /-- "Unknown auth session guard type ...". -/
  | unknownGuardType
  /-- "Login requires action, but we can't tell what kind of action is
  required". -/
  | ambiguousChallenge
  /-- a collaborator call rejected. -/
  | handler (e : JsError)
  /-- a property access on `undefined` (TypeScript would crash); only
  reachable when internal methods are entered without a stored
  start-session response. -/
  | typeErrorUndefined
deriving Repr, DecidableEq

/-- The optional `ex.eresult` property of a thrown error. -/
def SessionError.eresultOf : SessionError → Option Nat
  | .handler e => e.eresult
  | _ => none

/-- Result of running a state-mutating method: the state at the point of
return or throw, the effects produced so far, and the outcome. -/
structure StepResult (α : Type) where
  state : LoginSession
  effects : List Effect
  result : Except SessionError α
deriving Repr, DecidableEq

/-- `cancelLoginAttempt()` (lines 357-366): sets `_pollingCanceled`; if the
`_pollTimer` field holds a handle (even a stale one — the field is never
nulled), clears any pending timeout and returns `true`; otherwise returns
`false`. -/
def cancelLoginAttempt (s : LoginSession) : LoginSession × Bool :=
  let s1 := { s with _pollingCanceled := true }
  if s1._pollTimer then
    ({ s1 with _pollTimerPending := false }, true)
  else
    (s1, false)

/-- `submitSteamGuardCode(authCode)` (lines 337-355): verify the session is
started, require an outstanding EmailCode or DeviceCode challenge, submit
via the handler, and on success schedule an immediate poll. The session
state is not mutated. -/
def submitSteamGuardCode (s : LoginSession) (h : AuthenticationClient)
    (authCode : String) : Except SessionError Unit × List Effect :=
  match s._startSessionResponse with
  | none => (.error .notStarted, [])
  | some resp =>
    let needsEmailCode :=
      resp.allowedConfirmations.any (fun c => c.type == .EmailCode)
    let needsTotpCode :=
      resp.allowedConfirmations.any (fun c => c.type == .DeviceCode)
    if !needsEmailCode && !needsTotpCode then (.error .noGuardNeeded, [])
    else
      match h.submitSteamGuardCodeOutcome with
      | .error e => (.error (.handler e), [.callSubmitCode authCode])
      | .ok _ =>
        (.ok (), [.callSubmitCode authCode, .schedulePollImmediate])

/-- Lines 297-317 of `_attemptEmailCodeAuth`: the machine-token shortcut
reached when no guard code was supplied or submitting it failed with
`InvalidLoginAuthCode`. `effs` are the effects already produced. -/
def attemptEmailCodeAuthTail (s : LoginSession) (h : AuthenticationClient)
    (effs : List Effect) : Except SessionError Bool × List Effect :=
  match s._startSessionResponse with
  | none => (.error .typeErrorUndefined, effs)
  | some resp =>
    if resp.allowedConfirmations.any (fun c => c.type == .MachineToken) then
      let effs2 := effs ++ [.callCheckMachineAuth s._steamGuardMachineToken]
      match h.checkMachineAuthOutcome with
      | .error e => (.error (.handler e), effs2)
      | .ok result =>
        if result.result == EResult.OK then
          (.ok true, effs2 ++ [.schedulePollImmediate])
        else
          (.ok false, effs2)
    else
      (.ok false, effs)

/-- `_attemptEmailCodeAuth()` (lines 284-318): if a guard code is stored,
submit it; a success resolves the challenge, a rejection whose `eresult`
is not `InvalidLoginAuthCode` is rethrown, and the wrong-code rejection
falls through to the machine-token shortcut. -/
def attemptEmailCodeAuth (s : LoginSession) (h : AuthenticationClient) :
    Except SessionError Bool × List Effect :=
  if jsTruthyStr s._steamGuardCode then
    match submitSteamGuardCode s h (s._steamGuardCode.getD "") with
    | (.ok _, eff) => (.ok true, eff)
    | (.error e, eff) =>
      if e.eresultOf == some EResult.InvalidLoginAuthCode then
        attemptEmailCodeAuthTail s h eff
      else
        (.error e, eff)
  else
    attemptEmailCodeAuthTail s h []

/-- `_attemptTotpCodeAuth()` (lines 320-335): like the email path but the
wrong-code result is `TwoFactorCodeMismatch` and there is no machine-token
shortcut. -/
def attemptTotpCodeAuth (s : LoginSession) (h : AuthenticationClient) :
    Except SessionError Bool × List Effect :=
  if jsTruthyStr s._steamGuardCode then
    match submitSteamGuardCode s h (s._steamGuardCode.getD "") with
    | (.ok _, eff) => (.ok true, eff)
    | (.error e, eff) =>
      if e.eresultOf == some EResult.TwoFactorCodeMismatch then
        (.ok false, eff)
      else
        (.error e, eff)
  else
    (.ok false, [])

/-- The `for` loop of `_processStartSessionResponse` (lines 173-222)
followed by the post-loop check (lines 225-232). `validActions` and
`effs` are the accumulator and effects so far; the session state is not
mutated by the loop. -/
def processConfirmationsLoop (s : LoginSession) (h : AuthenticationClient) :
    List GuardChallenge → List StartSessionResponseValidAction →
    List Effect → Except SessionError StartSessionResponse × List Effect
  | [], validActions, effs =>
    if validActions.isEmpty then (.error .ambiguousChallenge, effs)
    else
      (.ok { actionRequired := true, validActions := some validActions }, effs)
  | i :: rest, validActions, effs =>
    match i.type with
    | .None =>
      (.ok { actionRequired := false, validActions := none },
        effs ++ [.schedulePollImmediate])
    | .EmailCode =>
      match attemptEmailCodeAuth s h with
      | (.error e, eff) => (.error e, effs ++ eff)
      | (.ok true, eff) =>
        (.ok { actionRequired := false, validActions := none }, effs ++ eff)
      | (.ok false, eff) =>
        processConfirmationsLoop s h rest
          (validActions ++ [{ type := i.type, detail := jsStrOrNone i.message }])
          (effs ++ eff)
    | .DeviceCode =>
      match attemptTotpCodeAuth s h with
      | (.error e, eff) => (.error e, effs ++ eff)
      | (.ok true, eff) =>
        (.ok { actionRequired := false, validActions := none }, effs ++ eff)
      | (.ok false, eff) =>
        processConfirmationsLoop s h rest
          (validActions ++ [{ type := i.type, detail := jsStrOrNone i.message }])
          (effs ++ eff)
    | .DeviceConfirmation =>
      processConfirmationsLoop s h rest
        (validActions ++ [{ type := i.type, detail := none }])
        (effs ++ [.schedulePollImmediate])
    | .EmailConfirmation =>
      processConfirmationsLoop s h rest
        (validActions ++ [{ type := i.type, detail := none }])
        (effs ++ [.schedulePollImmediate])
    | .MachineToken =>
      processConfirmationsLoop s h rest validActions effs
    | .Unknown _ => (.error .unknownGuardType, effs)

/-- `_processStartSessionResponse()` (lines 168-233): reset the canceled
flag and evaluate the allowed confirmations. -/
def processStartSessionResponse (s : LoginSession) (h : AuthenticationClient) :
    StepResult StartSessionResponse :=
  let s1 := { s with _pollingCanceled := false }
  match s._startSessionResponse with
  | none => { state := s1, effects := [], result := .error .typeErrorUndefined }
  | some resp =>
    { state := s1
      effects := (processConfirmationsLoop s1 h resp.allowedConfirmations [] []).2
      result := (processConfirmationsLoop s1 h resp.allowedConfirmations [] []).1 }

/-- `startWithCredentials(details)` (lines 146-166): reset the
remote-interaction flag, store the supplied guard code and machine token,
call the encrypt-password and start-session collaborators (modelled as an
infallible oracle; a transport failure would propagate unchanged), store
the response, and process it. -/
def startWithCredentials (s : LoginSession) (h : AuthenticationClient)
    (details : StartLoginSessionWithCredentialsDetails) :
    StepResult StartSessionResponse :=
  let s1 := { s with
    _hadRemoteInteraction := false
    _steamGuardCode := details.steamGuardCode
    _steamGuardMachineToken := details.steamGuardMachineToken }
  let s2 := { s1 with _startSessionResponse := some h.startSessionOutcome }
  let r := processStartSessionResponse s2 h
  { r with effects := [.callEncryptPassword, .callStartSession] ++ r.effects }

/-- Lines 264-278 of `_doPoll`: the continuation that runs after the
`pollLoginStatus` call has come back with `pollResponse`. Updates the
stored response's `clientId`, reports first remote interaction, and either
commits the returned tokens and emits `authenticated`, or (when not
canceled) schedules the next tick. -/
def doPollPost (s : LoginSession) (pollResponse : PollResponse) :
    StepResult Unit :=
  match s._startSessionResponse with
  | none => { state := s, effects := [], result := .error .typeErrorUndefined }
  | some resp =>
    let resp2 := { resp with clientId := jsOrStr pollResponse.newClientId resp.clientId }
    let s1 := { s with _startSessionResponse := some resp2 }
    let remoteNew := pollResponse.hadRemoteInteraction && !s1._hadRemoteInteraction
    let s2 := if remoteNew then { s1 with _hadRemoteInteraction := true } else s1
    let eff2 := if remoteNew then [Effect.emitRemoteInteraction] else []
    if pollResponse.accessToken.isSome then
      let s3 := { s2 with accountName := pollResponse.accountName }
      match setAccessToken s3 pollResponse.accessToken with
      | .error e => { state := s3, effects := eff2, result := .error (.setToken e) }
      | .ok s4 =>
        match setRefreshToken s4 pollResponse.refreshToken with
        | .error e => { state := s4, effects := eff2, result := .error (.setToken e) }
        | .ok s5 =>
          { state := s5, effects := eff2 ++ [.emitAuthenticated], result := .ok () }
    else if !s2._pollingCanceled then
      { state := { s2 with _pollTimer := true, _pollTimerPending := true }
        effects := eff2 ++ [.schedulePollTimer (resp2.pollInterval * 1000)]
        result := .ok () }
    else
      { state := s2, effects := eff2, result := .ok () }

/-- `_doPoll()` (lines 235-279) as one tick observed at wall-clock time
`now` (`Date.now()`): return at entry when canceled; clear any pending
timeout (the `_pollTimer` field keeps its stale handle); on the first tick
record the start time and emit `polling`; on timeout emit `timeout` and
cancel; otherwise issue the poll call (a rejection is reported via the
`error` event and stops the loop) and run `doPollPost`. -/
def doPoll (s : LoginSession) (h : AuthenticationClient) (now : Nat) :
    StepResult Unit :=
  if s._pollingCanceled then
    { state := s, effects := [], result := .ok () }
  else
    let s1 := { s with _pollTimerPending := false }
    let s2 :=
      match s1._pollingStartedTime with
      | none => { s1 with _pollingStartedTime := some now }
      | some _ => s1
    let eff2 :=
      match s1._pollingStartedTime with
      | none => [Effect.emitPolling]
      | some _ => []
    let totalPollingTime := now - s2._pollingStartedTime.getD now
    if s2.loginTimeout ≤ totalPollingTime then
      { state := (cancelLoginAttempt s2).1, effects := eff2 ++ [.emitTimeout]
        result := .ok () }
    else
      match s2._startSessionResponse with
      | none =>
        { state := s2, effects := eff2 ++ [.callPollStatus, .emitError]
          result := .ok () }
      | some _ =>
        match h.pollOutcome with
        | .error _ =>
          { state := s2, effects := eff2 ++ [.callPollStatus, .emitError]
            result := .ok () }
        | .ok pollResponse =>
          let post := doPollPost s2 pollResponse
          { post with effects := eff2 ++ [.callPollStatus] ++ post.effects }

/-- Failures of one transfer request inside `getWebCookies`
(lines 395-411). -/
inductive TransferError where
  /-- "No Set-Cookie header in result". -/
  | noSetCookieHeader
  /-- "No steamLoginSecure cookie in result". -/
  | noSteamLoginSecureCookie
deriving Repr, DecidableEq

/-- The part of one transfer endpoint's HTTP response the code inspects:
`result.headers['set-cookie']` (absent header modelled as `none`). -/
structure TransferHttpResult where
  setCookie : Option (List String)
deriving Repr, DecidableEq

/-- Characters-level model of JavaScript `String.prototype.trim`. -/
def trimChars (l : List Char) : List Char :=
  ((l.dropWhile Char.isWhitespace).reverse.dropWhile Char.isWhitespace).reverse

/-- Model of `c.split(';')[0].trim()`. -/
def cookieNameValue (c : String) : String :=
  String.mk (trimChars (c.toList.takeWhile (fun ch => ch ≠ ';')))

/-- Model of `c.startsWith('steamLoginSecure=')` via character lists (kept
kernel-reducible). -/
def beginsWithSteamLoginSecure (c : String) : Bool :=
  "steamLoginSecure=".toList.isPrefixOf c.toList

/-- The body of one transfer promise (lines 402-410): reject when the
response has no Set-Cookie header (or an empty one), reject when no cookie
is `steamLoginSecure=...`, otherwise resolve with the trimmed name=value
parts of every cookie. -/
def transferResult (result : TransferHttpResult) :
    Except TransferError (List String) :=
  match result.setCookie with
  | none => .error .noSetCookieHeader
  | some cookies =>
    if cookies.length == 0 then .error .noSetCookieHeader
    else if !cookies.any beginsWithSteamLoginSecure then
      .error .noSteamLoginSecureCookie
    else
      .ok (cookies.map cookieNameValue)

/-- Among the settled outcomes `(completionTime, outcome)` satisfying `p`,
the one the event loop delivers first: smallest completion time, earliest
submission on ties. -/
def earliestSettled {ε α : Type} (p : Except ε α → Bool) :
    List (Nat × Except ε α) → Option (Nat × Except ε α)
  | [] => none
  | x :: xs =>
    match earliestSettled p xs with
    | none => if p x.2 then some x else none
    | some b =>
      if p x.2 && decide (x.1 ≤ b.1) then some x else some b

/-- Whether an `Except` is a success. -/
def exceptIsOk {ε α : Type} : Except ε α → Bool
  | .ok _ => true
  | .error _ => false

/-- The `promiseAny` helper (lines 421-440) over promises modelled as
`(completionTime, settledOutcome)` pairs: callbacks run in completion
order, so the promise resolves with the first success to settle, and —
only once every promise has settled — rejects with `rejections[0]`, the
first rejection to settle. `none` means the returned promise never
settles (an empty input list). -/
def promiseAny {ε α : Type} (promises : List (Nat × Except ε α)) :
    Option (Except ε α) :=
  match earliestSettled exceptIsOk promises with
  | some x => some x.2
  | none => (earliestSettled (fun r => !exceptIsOk r) promises).map (·.2)

/-- The transfer race of `getWebCookies` (lines 392-413): every transfer
endpoint's request runs concurrently; each settles at its completion time
with `transferResult` of its HTTP response, and `promiseAny` picks the
overall outcome. -/
def executeTransfers (transfers : List (Nat × TransferHttpResult)) :
    Option (Except TransferError (List String)) :=
  promiseAny (transfers.map (fun tr => (tr.1, transferResult tr.2)))

/-- Core of the cross-token consistency invariant, over the access token,
the refresh token, and the account id of the stored start-session response
(if any): set tokens' subjects agree with each other, and a non-empty
(truthy) response account id pins both set tokens' subjects to it. -/
def tokenSubsConsistent (acc ref : Option SteamJwt) (sid : Option String) :
    Bool :=
  (match acc, ref with
   | some a, some r => a.sub == r.sub
   | _, _ => true) &&
  (match sid with
   | some i =>
     (i == "") ||
     ((match acc with
       | some a => a.sub == i
       | none => true) &&
      (match ref with
       | some r => r.sub == i
       | none => true))
   | none => true)

/-- The cross-token consistency invariant of a session state. -/
def tokenConsistent (s : LoginSession) : Bool :=
  tokenSubsConsistent s._accessToken s._refreshToken
    (s._startSessionResponse.map
      StartAuthSessionWithCredentialsResponse.steamId)

/-! ### Concrete fixtures used by witnesses and counterexamples -/

/-- A well-formed token for account `76561198000000001`. -/
def tokA : SteamJwt :=
  { decodeOk := true, sub := "76561198000000001", subParses := true }

/-- A well-formed token for the different account `76561198000000002`. -/
def tokB : SteamJwt :=
  { decodeOk := true, sub := "76561198000000002", subParses := true }

/-- A fresh session (platform type 0). -/
def baseSession : LoginSession := newLoginSession 0

/-- A session holding only an access token for account A. -/
def sessionWithAccessA : LoginSession :=
  { baseSession with _accessToken := some tokA }

/-- A session holding only a refresh token for account A. -/
def sessionWithRefreshA : LoginSession :=
  { baseSession with _refreshToken := some tokA }

/-- Start-session response for account B whose only challenge is `None`. -/
def respNoneB : StartAuthSessionWithCredentialsResponse :=
  { clientId := "client-1", steamId := "76561198000000002",
    allowedConfirmations := [{ type := .None, message := none }],
    pollInterval := 5 }

/-- Start-session response for account A whose only challenge is
`EmailCode` (with a detail message). -/
def respEmailA : StartAuthSessionWithCredentialsResponse :=
  { clientId := "client-1", steamId := "76561198000000001",
    allowedConfirmations :=
      [{ type := .EmailCode, message := some "ab at cd.ef" }],
    pollInterval := 5 }

/-- Start-session response for account A whose only challenge is
`DeviceCode`. -/
def respDeviceA : StartAuthSessionWithCredentialsResponse :=
  { respEmailA with
    allowedConfirmations := [{ type := .DeviceCode, message := none }] }

/-- Start-session response for account A with `EmailCode` and
`MachineToken` challenges. -/
def respEmailMachineA : StartAuthSessionWithCredentialsResponse :=
  { respEmailA with
    allowedConfirmations :=
      [{ type := .EmailCode, message := none },
       { type := .MachineToken, message := none }] }

/-- Start-session response for account A with an empty challenge list. -/
def respEmptyA : StartAuthSessionWithCredentialsResponse :=
  { respEmailA with allowedConfirmations := [] }

/-- A poll response carrying no tokens. -/
def pollRespEmpty : PollResponse :=
  { newClientId := none, hadRemoteInteraction := false,
    accessToken := none, refreshToken := none, accountName := none }

/-- A poll response carrying tokens for account A. -/
def pollRespTokensA : PollResponse :=
  { newClientId := some "client-2", hadRemoteInteraction := false,
    accessToken := some tokA, refreshToken := some tokA,
    accountName := some "accountA" }

/-- Handler oracle whose start-session call returns `resp` and whose other
calls succeed blandly. -/
def handlerReturning (resp : StartAuthSessionWithCredentialsResponse) :
    AuthenticationClient :=
  { startSessionOutcome := resp
    submitSteamGuardCodeOutcome := .ok ()
    checkMachineAuthOutcome := .ok { result := 2 }
    pollOutcome := .ok pollRespEmpty }

/-- Handler oracle whose `submitSteamGuardCode` call rejects with the given
`eresult`. -/
def handlerSubmitErr (er : Option Nat)
    (resp : StartAuthSessionWithCredentialsResponse) : AuthenticationClient :=
  { handlerReturning resp with
    submitSteamGuardCodeOutcome := .error { eresult := er } }

/-- Handler oracle whose poll call resolves with `pr`. -/
def handlerPolling (pr : PollResponse) : AuthenticationClient :=
  { handlerReturning respEmailA with pollOutcome := .ok pr }

/-- Details without a guard code. -/
def detailsPlain : StartLoginSessionWithCredentialsDetails :=
  { accountName := "accountA", password := "hunter2",
    steamGuardCode := none, steamGuardMachineToken := none }

/-- Details supplying the guard code `XYZ12`. -/
def detailsWithCode : StartLoginSessionWithCredentialsDetails :=
  { detailsPlain with steamGuardCode := some "XYZ12" }

/-- A session in which a login attempt against account A has been started
(challenge list `[EmailCode]`). -/
def sessionStartedA : LoginSession :=
  { baseSession with _startSessionResponse := some respEmailA }

/-- State after one poll tick at time 0 whose response carries no token:
the tick schedules a timer (`_pollTimer` and `_pollTimerPending` set). -/
def c4StateAfterTick1 : LoginSession :=
  (doPoll sessionStartedA (handlerPolling pollRespEmpty) 0).state

/-- State after the scheduled timer fired at time 5000 and that tick's
response carried tokens: the login completed, no timer is pending, but the
`_pollTimer` field still holds the stale handle. -/
def c4StateAfterAuth : LoginSession :=
  (doPoll c4StateAfterTick1 (handlerPolling pollRespTokensA) 5000).state

/-- A session whose polling was canceled while a poll call was in flight
(flag set between issuing the call and its response). -/
def sessionCanceledMidFlight : LoginSession :=
  { sessionStartedA with
    _pollingCanceled := true, _pollingStartedTime := some 0,
    _pollTimer := true }

/-- Two transfer endpoints that both fail: the first (submission order)
completes at time 10 with a missing Set-Cookie header, the second
completes earlier (time 5) with a cookie set lacking `steamLoginSecure`. -/
def transfersAllFailing : List (Nat × TransferHttpResult) :=
  [(10, { setCookie := none }),
   (5, { setCookie := some ["sessionid=abc; Path=/"] })]

/-- Three transfer endpoints: the second succeeds (earliest completion),
the other two fail. -/
def transfersOneGood : List (Nat × TransferHttpResult) :=
  [(10, { setCookie := none }),
   (5, { setCookie := some ["steamLoginSecure=tok; Path=/", "x=1"] }),
   (7, { setCookie := some ["sessionid=abc"] })]

/-- A session with a timer scheduled and pending. -/
def sessionTimerPending : LoginSession :=
  { sessionStartedA with _pollTimer := true, _pollTimerPending := true }

/-- A started session whose response carries an empty challenge list. -/
def sessionStartedEmptyA : LoginSession :=
  { baseSession with _startSessionResponse := some respEmptyA }

/-- A started session with `EmailCode` and `MachineToken` challenges, a
stored guard code, and no stored machine-auth token. -/
def sessionStartedEmailMachineA : LoginSession :=
  { baseSession with
    _startSessionResponse := some respEmailMachineA
    _steamGuardCode := some "XYZ12"
    _steamGuardMachineToken := none }

/-! ### Helper lemmas -/

theorem doPoll_of_canceled (s : LoginSession) (h : AuthenticationClient)
    (now : Nat) (hc : s._pollingCanceled = true) :
    doPoll s h now = { state := s, effects := [], result := .ok () } := by
  unfold doPoll
  simp [hc]

theorem setAccessToken_ok_shape {s s' : LoginSession} {tok : Option SteamJwt}
    (h : setAccessToken s tok = .ok s') :
    ∃ x, s' = { s with _accessToken := x } := by
  unfold setAccessToken at h
  match tok with
  | none =>
    simp only [Except.ok.injEq] at h
    exact ⟨none, h.symm⟩
  | some t =>
    simp only at h
    split at h
    · exact absurd h (by simp)
    split at h
    · exact absurd h (by simp)
    split at h
    · exact absurd h (by simp)
    split at h
    next rt hrt =>
      split at h
      · exact absurd h (by simp)
      split at h
      · exact absurd h (by simp)
      · simp only [Except.ok.injEq] at h
        exact ⟨some t, h.symm⟩
    next hrt =>
      simp only [Except.ok.injEq] at h
      exact ⟨some t, h.symm⟩

theorem setRefreshToken_ok_shape {s s' : LoginSession} {tok : Option SteamJwt}
    (h : setRefreshToken s tok = .ok s') :
    ∃ x, s' = { s with _refreshToken := x } := by
  unfold setRefreshToken at h
  match tok with
  | none =>
    simp only [Except.ok.injEq] at h
    exact ⟨none, h.symm⟩
  | some t =>
    simp only at h
    split at h
    · exact absurd h (by simp)
    split at h
    · exact absurd h (by simp)
    split at h
    · exact absurd h (by simp)
    split at h
    next a ha =>
      split at h
      · exact absurd h (by simp)
      split at h
      · exact absurd h (by simp)
      · simp only [Except.ok.injEq] at h
        exact ⟨some t, h.symm⟩
    next ha =>
      simp only [Except.ok.injEq] at h
      exact ⟨some t, h.symm⟩

theorem earliestSettled_cons_none {ε α : Type} (p : Except ε α → Bool)
    (x : Nat × Except ε α) (xs : List (Nat × Except ε α))
    (hrec : earliestSettled p xs = none) :
    earliestSettled p (x :: xs) = (if p x.2 then some x else none) := by
  rw [earliestSettled, hrec]

theorem earliestSettled_cons_some {ε α : Type} (p : Except ε α → Bool)
    (x b : Nat × Except ε α) (xs : List (Nat × Except ε α))
    (hrec : earliestSettled p xs = some b) :
    earliestSettled p (x :: xs) =
      (if p x.2 && decide (x.1 ≤ b.1) then some x else some b) := by
  rw [earliestSettled, hrec]

theorem earliestSettled_mem {ε α : Type} (p : Except ε α → Bool) :
    ∀ (ps : List (Nat × Except ε α)) (m : Nat × Except ε α),
      earliestSettled p ps = some m → m ∈ ps ∧ p m.2 = true := by
  intro ps
  induction ps with
  | nil => intro m h0; simp [earliestSettled] at h0
  | cons x xs ih =>
    intro m h0
    cases hrec : earliestSettled p xs with
    | none =>
      rw [earliestSettled_cons_none p x xs hrec] at h0
      split at h0
      · next hp =>
        simp only [Option.some.injEq] at h0
        subst h0
        exact ⟨List.mem_cons_self x xs, hp⟩
      · simp at h0
    | some b =>
      rw [earliestSettled_cons_some p x b xs hrec] at h0
      split at h0
      · next hp =>
        simp only [Option.some.injEq] at h0
        subst h0
        have hp2 : p x.2 = true ∧ x.1 ≤ b.1 := by simpa using hp
        exact ⟨List.mem_cons_self x xs, hp2.1⟩
      · simp only [Option.some.injEq] at h0
        obtain ⟨hmem, hpb⟩ := ih b hrec
        rw [← h0]
        exact ⟨List.mem_cons_of_mem x hmem, hpb⟩

theorem earliestSettled_none_iff {ε α : Type} (p : Except ε α → Bool) :
    ∀ ps : List (Nat × Except ε α),
      earliestSettled p ps = none ↔ ∀ y ∈ ps, p y.2 = false := by
  intro ps
  induction ps with
  | nil => simp [earliestSettled]
  | cons x xs ih =>
    cases hrec : earliestSettled p xs with
    | none =>
      have hxs := ih.mp hrec
      rw [earliestSettled_cons_none p x xs hrec]
      constructor
      · intro h0 y hy
        rcases List.mem_cons.mp hy with rfl | hy2
        · by_contra hpx
          rw [Bool.not_eq_false] at hpx
          simp [hpx] at h0
        · exact hxs y hy2
      · intro hall
        simp [hall x (List.mem_cons_self x xs)]
    | some b =>
      rw [earliestSettled_cons_some p x b xs hrec]
      constructor
      · intro h0
        split at h0 <;> simp at h0
      · intro hall
        obtain ⟨hmem, hpb⟩ := earliestSettled_mem p xs b hrec
        have := hall b (List.mem_cons_of_mem x hmem)
        rw [this] at hpb
        cases hpb

theorem earliestSettled_min {ε α : Type} (p : Except ε α → Bool) :
    ∀ (ps : List (Nat × Except ε α)) (m : Nat × Except ε α),
      earliestSettled p ps = some m →
      ∀ y ∈ ps, p y.2 = true → m.1 ≤ y.1 := by
  intro ps
  induction ps with
  | nil => intro m h0; simp [earliestSettled] at h0
  | cons x xs ih =>
    intro m h0 y hy hpy
    cases hrec : earliestSettled p xs with
    | none =>
      rw [earliestSettled_cons_none p x xs hrec] at h0
      split at h0
      · simp only [Option.some.injEq] at h0
        subst h0
        rcases List.mem_cons.mp hy with rfl | hy2
        · exact Nat.le_refl _
        · exact absurd hpy (by simp [(earliestSettled_none_iff p xs).mp hrec y hy2])
      · simp at h0
    | some b =>
      rw [earliestSettled_cons_some p x b xs hrec] at h0
      split at h0
      · next hp =>
        simp only [Option.some.injEq] at h0
        subst h0
        have hp2 : p x.2 = true ∧ x.1 ≤ b.1 := by simpa using hp
        rcases List.mem_cons.mp hy with rfl | hy2
        · exact Nat.le_refl _
        · exact Nat.le_trans hp2.2 (ih b hrec y hy2 hpy)
      · next hp =>
        simp only [Option.some.injEq] at h0
        subst h0
        rcases List.mem_cons.mp hy with rfl | hy2
        · have hnle : ¬ (y.1 ≤ b.1) := by
            intro hle
            exact hp (by simp [hpy, hle])
          omega
        · exact ih b hrec y hy2 hpy

theorem tokenConsistent_congr {a b : LoginSession}
    (h1 : a._accessToken = b._accessToken)
    (h2 : a._refreshToken = b._refreshToken)
    (h3 : a._startSessionResponse.map
        StartAuthSessionWithCredentialsResponse.steamId =
      b._startSessionResponse.map
        StartAuthSessionWithCredentialsResponse.steamId) :
    tokenConsistent a = tokenConsistent b := by
  unfold tokenConsistent
  rw [h1, h2, h3]

theorem startResponseSubMismatch_false {s : LoginSession}
    {r : StartAuthSessionWithCredentialsResponse} {sub : String}
    (hresp : s._startSessionResponse = some r)
    (hsm : startResponseSubMismatch s sub = false) :
    r.steamId = "" ∨ sub = r.steamId := by
  unfold startResponseSubMismatch at hsm
  rw [hresp] at hsm
  by_cases hid : r.steamId = ""
  · exact Or.inl hid
  · by_cases hsub : sub = r.steamId
    · exact Or.inr hsub
    · simp [hid, hsub] at hsm

theorem tokenSubsConsistent_none_left (acc ref : Option SteamJwt)
    (sid : Option String) (h : tokenSubsConsistent acc ref sid = true) :
    tokenSubsConsistent none ref sid = true := by
  cases acc <;> cases ref <;> cases sid <;>
    simp_all [tokenSubsConsistent] <;> tauto

theorem tokenSubsConsistent_none_right (acc ref : Option SteamJwt)
    (sid : Option String) (h : tokenSubsConsistent acc ref sid = true) :
    tokenSubsConsistent acc none sid = true := by
  cases acc <;> cases ref <;> cases sid <;>
    simp_all [tokenSubsConsistent] <;> tauto

theorem tokenConsistent_setAccessToken {s s' : LoginSession}
    {tok : Option SteamJwt} (hs : tokenConsistent s = true)
    (h : setAccessToken s tok = .ok s') : tokenConsistent s' = true := by
  unfold setAccessToken at h
  match tok with
  | none =>
    simp only [Except.ok.injEq] at h
    subst h
    unfold tokenConsistent at hs ⊢
    exact tokenSubsConsistent_none_left _ _ _ hs
  | some t =>
    simp only at h
    split at h
    · exact absurd h (by simp)
    split at h
    · exact absurd h (by simp)
    split at h
    · exact absurd h (by simp)
    next hsmP =>
    have hsm : startResponseSubMismatch s t.sub = false := by
      revert hsmP
      cases startResponseSubMismatch s t.sub <;> simp
    split at h
    next rt hrt =>
      split at h
      · exact absurd h (by simp)
      split at h
      · exact absurd h (by simp)
      next hsubP =>
      have hsub : rt.sub = t.sub := by
        simpa [ne_eq, not_not] using hsubP
      simp only [Except.ok.injEq] at h
      subst h
      unfold tokenConsistent
      show tokenSubsConsistent (some t) s._refreshToken _ = true
      rw [hrt]
      cases hresp : s._startSessionResponse with
      | none => simp [tokenSubsConsistent, hsub]
      | some r =>
        rcases startResponseSubMismatch_false hresp hsm with hid | hts
        · simp [tokenSubsConsistent, hsub, hid]
        · simp [tokenSubsConsistent, hsub, hts]
    next hrt =>
      simp only [Except.ok.injEq] at h
      subst h
      unfold tokenConsistent
      show tokenSubsConsistent (some t) s._refreshToken _ = true
      rw [hrt]
      cases hresp : s._startSessionResponse with
      | none => simp [tokenSubsConsistent]
      | some r =>
        rcases startResponseSubMismatch_false hresp hsm with hid | hts
        · simp [tokenSubsConsistent, hid]
        · simp [tokenSubsConsistent, hts]

theorem tokenConsistent_setRefreshToken {s s' : LoginSession}
    {tok : Option SteamJwt} (hs : tokenConsistent s = true)
    (h : setRefreshToken s tok = .ok s') : tokenConsistent s' = true := by
  unfold setRefreshToken at h
  match tok with
  | none =>
    simp only [Except.ok.injEq] at h
    subst h
    unfold tokenConsistent at hs ⊢
    exact tokenSubsConsistent_none_right _ _ _ hs
  | some t =>
    simp only at h
    split at h
    · exact absurd h (by simp)
    split at h
    · exact absurd h (by simp)
    split at h
    · exact absurd h (by simp)
    next hsmP =>
    have hsm : startResponseSubMismatch s t.sub = false := by
      revert hsmP
      cases startResponseSubMismatch s t.sub <;> simp
    split at h
    next a ha =>
      split at h
      · exact absurd h (by simp)
      split at h
      · exact absurd h (by simp)
      next hsubP =>
      have hsub : a.sub = t.sub := by
        simpa [ne_eq, not_not] using hsubP
      simp only [Except.ok.injEq] at h
      subst h
      unfold tokenConsistent
      show tokenSubsConsistent s._accessToken (some t) _ = true
      rw [ha]
      cases hresp : s._startSessionResponse with
      | none => simp [tokenSubsConsistent, hsub]
      | some r =>
        rcases startResponseSubMismatch_false hresp hsm with hid | hts
        · simp [tokenSubsConsistent, hsub, hid]
        · simp [tokenSubsConsistent, hsub, hts]
    next ha =>
      simp only [Except.ok.injEq] at h
      subst h
      unfold tokenConsistent
      show tokenSubsConsistent s._accessToken (some t) _ = true
      rw [ha]
      cases hresp : s._startSessionResponse with
      | none => simp [tokenSubsConsistent]
      | some r =>
        rcases startResponseSubMismatch_false hresp hsm with hid | hts
        · simp [tokenSubsConsistent, hid]
        · simp [tokenSubsConsistent, hts]

theorem tokenConsistent_of_congr {a b : LoginSession}
    (h1 : a._accessToken = b._accessToken)
    (h2 : a._refreshToken = b._refreshToken)
    (h3 : a._startSessionResponse.map
        StartAuthSessionWithCredentialsResponse.steamId =
      b._startSessionResponse.map
        StartAuthSessionWithCredentialsResponse.steamId)
    (hb : tokenConsistent b = true) : tokenConsistent a = true := by
  rw [tokenConsistent_congr h1 h2 h3]
  exact hb

theorem tokenConsistent_doPollPost (s : LoginSession) (pr : PollResponse)
    (hs : tokenConsistent s = true) :
    tokenConsistent (doPollPost s pr).state = true := by
  unfold doPollPost
  cases hresp : s._startSessionResponse with
  | none => simpa using hs
  | some resp =>
    simp only
    split
    · -- access token present: the setters run
      split
      · -- setAccessToken threw
        next e hset =>
        exact tokenConsistent_of_congr (by split <;> rfl) (by split <;> rfl)
          (by split <;> simp [hresp]) hs
      · next s4 hset =>
        have h3 : tokenConsistent s4 = true := by
          refine tokenConsistent_setAccessToken ?_ hset
          exact tokenConsistent_of_congr (by split <;> rfl) (by split <;> rfl)
            (by split <;> simp [hresp]) hs
        split
        · exact h3
        · next s5 hset2 =>
          exact tokenConsistent_setRefreshToken h3 hset2
    · split
      · exact tokenConsistent_of_congr (by split <;> rfl) (by split <;> rfl)
          (by split <;> simp [hresp]) hs
      · exact tokenConsistent_of_congr (by split <;> rfl) (by split <;> rfl)
          (by split <;> simp [hresp]) hs

theorem tokenConsistent_doPoll (s : LoginSession) (h : AuthenticationClient)
    (now : Nat) (hs : tokenConsistent s = true) :
    tokenConsistent (doPoll s h now).state = true := by
  unfold doPoll
  split
  · exact hs
  · simp only
    split
    · -- timeout branch
      exact tokenConsistent_of_congr
        (by split <;> (simp only [cancelLoginAttempt]; split <;> rfl))
        (by split <;> (simp only [cancelLoginAttempt]; split <;> rfl))
        (by split <;> (simp only [cancelLoginAttempt]; split <;> rfl)) hs
    · split
      · exact tokenConsistent_of_congr (by split <;> rfl) (by split <;> rfl)
          (by split <;> rfl) hs
      · split
        · exact tokenConsistent_of_congr (by split <;> rfl) (by split <;> rfl)
            (by split <;> rfl) hs
        · refine tokenConsistent_doPollPost _ _ ?_
          exact tokenConsistent_of_congr (by split <;> rfl) (by split <;> rfl)
            (by split <;> rfl) hs

theorem processConfirmationsLoop_ok_nonempty (s : LoginSession)
    (h : AuthenticationClient) :
    ∀ (confs : List GuardChallenge) (va : List StartSessionResponseValidAction)
      (effs effs2 : List Effect) (r : StartSessionResponse),
      processConfirmationsLoop s h confs va effs = (.ok r, effs2) →
      r.actionRequired = true →
      ∃ l, r.validActions = some l ∧ l ≠ [] := by
  intro confs
  induction confs with
  | nil =>
    intro va effs effs2 r h0 hr
    unfold processConfirmationsLoop at h0
    split at h0
    · simp at h0
    · next hne =>
      simp only [Prod.mk.injEq, Except.ok.injEq] at h0
      refine ⟨va, ?_, ?_⟩
      · rw [← h0.1]
      · simpa using hne
  | cons i rest ih =>
    intro va effs effs2 r h0 hr
    unfold processConfirmationsLoop at h0
    cases hty : i.type <;> rw [hty] at h0
    case None =>
      simp only [Prod.mk.injEq, Except.ok.injEq] at h0
      rw [← h0.1] at hr
      simp at hr
    case EmailCode =>
      rcases hA : attemptEmailCodeAuth s h with ⟨res, eff⟩
      rw [hA] at h0
      match res with
      | .error e => simp at h0
      | .ok true =>
        simp only [Prod.mk.injEq, Except.ok.injEq] at h0
        rw [← h0.1] at hr
        simp at hr
      | .ok false => exact ih _ _ _ _ h0 hr
    case DeviceCode =>
      rcases hA : attemptTotpCodeAuth s h with ⟨res, eff⟩
      rw [hA] at h0
      match res with
      | .error e => simp at h0
      | .ok true =>
        simp only [Prod.mk.injEq, Except.ok.injEq] at h0
        rw [← h0.1] at hr
        simp at hr
      | .ok false => exact ih _ _ _ _ h0 hr
    case DeviceConfirmation => exact ih _ _ _ _ h0 hr
    case EmailConfirmation => exact ih _ _ _ _ h0 hr
    case MachineToken => exact ih _ _ _ _ h0 hr
    case Unknown n => simp at h0

theorem processConfirmationsLoop_all_machineToken (s : LoginSession)
    (h : AuthenticationClient) :
    ∀ (confs : List GuardChallenge) (effs : List Effect),
      confs.all (fun c => c.type == .MachineToken) = true →
      processConfirmationsLoop s h confs [] effs =
        (.error .ambiguousChallenge, effs) := by
  intro confs
  induction confs with
  | nil => intro effs _; rfl
  | cons i rest ih =>
    intro effs hall
    simp only [List.all_cons, Bool.and_eq_true, beq_iff_eq] at hall
    obtain ⟨hi, hrest⟩ := hall
    unfold processConfirmationsLoop
    rw [hi]
    exact ih effs (by simpa using hrest)

/-! ### Claim theorems -/

/-- C1: assigning a decodable, parseable candidate token whose subject
differs from the stored start-result account id throws the
start-response mismatch error and leaves the session unchanged; when the
start-response check passes but the subject differs from the other
already-set (decodable) token's subject, the other-token mismatch error is
thrown and the session is left unchanged — in both directions
(access-token assignment against the refresh token and refresh-token
assignment against the access token). -/
theorem setToken_mismatch_rejected (s : LoginSession) (t : SteamJwt)
    (hdec : t.decodeOk = true) (hpar : t.subParses = true) :
    (∀ r, s._startSessionResponse = some r → r.steamId ≠ "" →
      t.sub ≠ r.steamId →
      trySetAccessToken s (some t) = (s, some .startResponseMismatch) ∧
      trySetRefreshToken s (some t) = (s, some .startResponseMismatch)) ∧
    (∀ rt, s._refreshToken = some rt → rt.decodeOk = true →
      rt.sub ≠ t.sub → startResponseSubMismatch s t.sub = false →
      trySetAccessToken s (some t) = (s, some .otherTokenMismatch)) ∧
    (∀ a, s._accessToken = some a → a.decodeOk = true →
      a.sub ≠ t.sub → startResponseSubMismatch s t.sub = false →
      trySetRefreshToken s (some t) = (s, some .otherTokenMismatch)) := by
  refine ⟨?_, ?_, ?_⟩
  · intro r hr hne1 hne2
    have hsm : startResponseSubMismatch s t.sub = true := by
      simp [startResponseSubMismatch, hr, hne1, hne2]
    constructor
    · unfold trySetAccessToken setAccessToken
      simp [hdec, hpar, hsm]
    · unfold trySetRefreshToken setRefreshToken
      simp [hdec, hpar, hsm]
  · intro rt hrt hdec2 hne hpass
    unfold trySetAccessToken setAccessToken
    simp [hdec, hpar, hpass, hrt, hdec2, hne]
  · intro a ha hdec2 hne hpass
    unfold trySetRefreshToken setRefreshToken
    simp [hdec, hpar, hpass, ha, hdec2, hne]

/-- Witness for C1 at a concrete input: a session holding a refresh token
for account A rejects an access token for account B, unchanged. -/
theorem setToken_mismatch_rejected_witness :
    trySetAccessToken sessionWithRefreshA (some tokB) =
      (sessionWithRefreshA, some SetTokenError.otherTokenMismatch) :=
  (setToken_mismatch_rejected sessionWithRefreshA tokB rfl rfl).2.1
    tokA rfl rfl (by decide) (by decide)

/-- C9: a token assignment, whether it succeeds or throws, modifies no
session field other than the assigned slot: the access-token setter
preserves every field but `_accessToken`, and the refresh-token setter
every field but `_refreshToken`. -/
theorem setToken_frame (s : LoginSession) (tok : Option SteamJwt) :
    ((trySetAccessToken s tok).1._refreshToken = s._refreshToken ∧
     (trySetAccessToken s tok).1._startSessionResponse =
       s._startSessionResponse ∧
     (trySetAccessToken s tok).1.accountName = s.accountName ∧
     (trySetAccessToken s tok).1.loginTimeout = s.loginTimeout ∧
     (trySetAccessToken s tok).1.platformType = s.platformType ∧
     (trySetAccessToken s tok).1._steamGuardCode = s._steamGuardCode ∧
     (trySetAccessToken s tok).1._steamGuardMachineToken =
       s._steamGuardMachineToken ∧
     (trySetAccessToken s tok).1._hadRemoteInteraction =
       s._hadRemoteInteraction ∧
     (trySetAccessToken s tok).1._pollingStartedTime =
       s._pollingStartedTime ∧
     (trySetAccessToken s tok).1._pollTimer = s._pollTimer ∧
     (trySetAccessToken s tok).1._pollTimerPending = s._pollTimerPending ∧
     (trySetAccessToken s tok).1._pollingCanceled = s._pollingCanceled) ∧
    ((trySetRefreshToken s tok).1._accessToken = s._accessToken ∧
     (trySetRefreshToken s tok).1._startSessionResponse =
       s._startSessionResponse ∧
     (trySetRefreshToken s tok).1.accountName = s.accountName ∧
     (trySetRefreshToken s tok).1.loginTimeout = s.loginTimeout ∧
     (trySetRefreshToken s tok).1.platformType = s.platformType ∧
     (trySetRefreshToken s tok).1._steamGuardCode = s._steamGuardCode ∧
     (trySetRefreshToken s tok).1._steamGuardMachineToken =
       s._steamGuardMachineToken ∧
     (trySetRefreshToken s tok).1._hadRemoteInteraction =
       s._hadRemoteInteraction ∧
     (trySetRefreshToken s tok).1._pollingStartedTime =
       s._pollingStartedTime ∧
     (trySetRefreshToken s tok).1._pollTimer = s._pollTimer ∧
     (trySetRefreshToken s tok).1._pollTimerPending = s._pollTimerPending ∧
     (trySetRefreshToken s tok).1._pollingCanceled = s._pollingCanceled) := by
  constructor
  · unfold trySetAccessToken
    cases hA : setAccessToken s tok with
    | error e => exact ⟨rfl, rfl, rfl, rfl, rfl, rfl, rfl, rfl, rfl, rfl, rfl, rfl⟩
    | ok s2 =>
      obtain ⟨x, rfl⟩ := setAccessToken_ok_shape hA
      exact ⟨rfl, rfl, rfl, rfl, rfl, rfl, rfl, rfl, rfl, rfl, rfl, rfl⟩
  · unfold trySetRefreshToken
    cases hA : setRefreshToken s tok with
    | error e => exact ⟨rfl, rfl, rfl, rfl, rfl, rfl, rfl, rfl, rfl, rfl, rfl, rfl⟩
    | ok s2 =>
      obtain ⟨x, rfl⟩ := setRefreshToken_ok_shape hA
      exact ⟨rfl, rfl, rfl, rfl, rfl, rfl, rfl, rfl, rfl, rfl, rfl, rfl⟩

/-- C5: processing a start-session response never reports
action-required success with an empty pending-action list, and a
challenge list whose entries are all `MachineToken` (in particular the
empty list and `[MachineToken]`) makes it fail with the
ambiguous-challenge error instead of returning success. -/
theorem processStartSessionResponse_ambiguous (s : LoginSession)
    (h : AuthenticationClient) :
    (∀ (r : StartSessionResponse),
      (processStartSessionResponse s h).result = .ok r →
      r.actionRequired = true → ∃ l, r.validActions = some l ∧ l ≠ []) ∧
    (∀ resp, s._startSessionResponse = some resp →
      resp.allowedConfirmations.all
        (fun c => c.type == EAuthSessionGuardType.MachineToken) = true →
      (processStartSessionResponse s h).result =
        .error .ambiguousChallenge) := by
  constructor
  · intro r hok har
    unfold processStartSessionResponse at hok
    cases hresp : s._startSessionResponse with
    | none => rw [hresp] at hok; simp at hok
    | some resp =>
      rw [hresp] at hok
      simp only at hok
      rcases hL : processConfirmationsLoop
          { s with _startSessionResponse := some resp, _pollingCanceled := false }
          h resp.allowedConfirmations [] [] with ⟨res, effs⟩
      rw [hL] at hok
      simp only at hok
      rw [hok] at hL
      exact processConfirmationsLoop_ok_nonempty _ h _ _ _ _ _ hL har
  · intro resp hresp hall
    unfold processStartSessionResponse
    rw [hresp]
    simp only
    rw [processConfirmationsLoop_all_machineToken _ h _ _ hall]

/-- Witness for C5 at a concrete input: the empty challenge list makes
`_processStartSessionResponse` throw the ambiguous-challenge error. -/
theorem processStartSessionResponse_ambiguous_witness :
    (processStartSessionResponse sessionStartedEmptyA
        (handlerReturning respEmptyA)).result =
      .error .ambiguousChallenge :=
  (processStartSessionResponse_ambiguous sessionStartedEmptyA
    (handlerReturning respEmptyA)).2 respEmptyA rfl (by decide)

/-- C10: in the `_attemptEmailCodeAuth` path, whenever the allowed
confirmations include `MachineToken`, the check-machine-auth collaborator
is called with the session's stored machine-auth token (absent or not):
both when no guard code is stored and when the stored guard code's
submission was rejected with `InvalidLoginAuthCode`. -/
theorem attemptEmailCodeAuth_machineTokenShortcut (s : LoginSession)
    (h : AuthenticationClient)
    (resp : StartAuthSessionWithCredentialsResponse)
    (hresp : s._startSessionResponse = some resp)
    (hmt : resp.allowedConfirmations.any
      (fun c => c.type == EAuthSessionGuardType.MachineToken) = true) :
    (jsTruthyStr s._steamGuardCode = false →
      Effect.callCheckMachineAuth s._steamGuardMachineToken ∈
        (attemptEmailCodeAuth s h).2) ∧
    (∀ e, h.submitSteamGuardCodeOutcome = .error e →
      e.eresult = some EResult.InvalidLoginAuthCode →
      resp.allowedConfirmations.any
        (fun c => c.type == EAuthSessionGuardType.EmailCode) = true →
      jsTruthyStr s._steamGuardCode = true →
      Effect.callCheckMachineAuth s._steamGuardMachineToken ∈
        (attemptEmailCodeAuth s h).2) := by
  have htail : ∀ effs,
      Effect.callCheckMachineAuth s._steamGuardMachineToken ∈
        (attemptEmailCodeAuthTail s h effs).2 := by
    intro effs
    unfold attemptEmailCodeAuthTail
    rw [hresp]
    simp only [hmt, if_true]
    split
    · simp
    · split
      · simp
      · simp
  constructor
  · intro hcode
    unfold attemptEmailCodeAuth
    rw [hcode]
    simpa using htail []
  · intro e he h65 hemail hcode
    unfold attemptEmailCodeAuth
    rw [hcode]
    simp only [if_true]
    unfold submitSteamGuardCode
    rw [hresp]
    simp only [hemail, he]
    simpa [SessionError.eresultOf, h65] using
      htail [Effect.callSubmitCode (s._steamGuardCode.getD "")]

/-- Witness for C10 at a concrete input: with `[EmailCode, MachineToken]`
allowed, a stored code rejected with `InvalidLoginAuthCode`, and no
stored machine-auth token, the collaborator is still called and receives
the absent token. -/
theorem attemptEmailCodeAuth_machineTokenShortcut_witness :
    Effect.callCheckMachineAuth none ∈
      (attemptEmailCodeAuth sessionStartedEmailMachineA
        (handlerSubmitErr (some 65) respEmailMachineA)).2 :=
  (attemptEmailCodeAuth_machineTokenShortcut sessionStartedEmailMachineA
      (handlerSubmitErr (some 65) respEmailMachineA) respEmailMachineA rfl
      (by decide)).2
    { eresult := some 65 } rfl rfl (by decide) (by decide)

/-- C4 counterexample: a run in which a tick schedules the poll timer, the
timer fires and that tick completes authentication without rescheduling,
so no timer is pending any more — yet a subsequent `cancelLoginAttempt()`
still returns `true` (the claim requires `false`), because the
`_pollTimer` field still holds the stale fired handle. -/
theorem cancelLoginAttempt_stale_counterexample :
    c4StateAfterTick1._pollTimerPending = true ∧
    (doPoll c4StateAfterTick1 (handlerPolling pollRespTokensA) 5000).result =
      .ok () ∧
    c4StateAfterAuth._pollTimerPending = false ∧
    (cancelLoginAttempt c4StateAfterAuth).2 = true := by
  exact ⟨rfl, rfl, rfl, rfl⟩

/-- C4 amended: `cancelLoginAttempt()` returns `true` exactly when the
`_pollTimer` field holds a handle (a timer was scheduled at some point —
the field is never nulled), not exactly when a timer is pending; it always
sets the canceled flag, and whenever a timer is pending (which in every
reachable state implies the field is set) it is cleared and `true` is
returned. -/
theorem cancelLoginAttempt_returns_timerField (s : LoginSession) :
    cancelLoginAttempt s =
      ({ s with _pollingCanceled := true,
                _pollTimerPending := s._pollTimerPending && !s._pollTimer },
       s._pollTimer) ∧
    (s._pollTimerPending = true → s._pollTimer = true →
      (cancelLoginAttempt s).2 = true ∧
      (cancelLoginAttempt s).1._pollTimerPending = false) := by
  constructor
  · unfold cancelLoginAttempt
    cases hpt : s._pollTimer <;> simp [hpt]
  · intro hp hf
    unfold cancelLoginAttempt
    simp [hf]

/-- Witness for the amended C4 at a concrete input: with a pending timer,
cancel returns `true` and clears it. -/
theorem cancelLoginAttempt_returns_timerField_witness :
    (cancelLoginAttempt sessionTimerPending).2 = true ∧
    (cancelLoginAttempt sessionTimerPending).1._pollTimerPending = false :=
  (cancelLoginAttempt_returns_timerField sessionTimerPending).2 rfl rfl

/-- C7 counterexample: a poll response that arrives after cancellation
(flag already set when the post-await continuation runs) and carries an
access token still commits the tokens and emits `authenticated`; the
claim requires the in-flight result to cause no token commit and no
notification. -/
theorem doPollPost_canceled_commits_counterexample :
    sessionCanceledMidFlight._pollingCanceled = true ∧
    sessionCanceledMidFlight._accessToken = none ∧
    (doPollPost sessionCanceledMidFlight pollRespTokensA).state._accessToken =
      some tokA ∧
    Effect.emitAuthenticated ∈
      (doPollPost sessionCanceledMidFlight pollRespTokensA).effects := by
  exact ⟨rfl, rfl, rfl, by decide⟩

/-- C7 amended: after the cancellation flag is set, every subsequent poll
tick returns at entry with no effects and no state change, and the result
of a poll call already in flight causes no rescheduling of the timer (the
pending-timer state is untouched) — but it is not fully discarded: the
client id is still updated and a token-carrying result still commits
tokens and emits notifications. -/
theorem doPoll_canceled_behavior :
    (∀ (s : LoginSession) (h : AuthenticationClient) (now : Nat),
      s._pollingCanceled = true →
      doPoll s h now = { state := s, effects := [], result := .ok () }) ∧
    (∀ (s : LoginSession) (pr : PollResponse), s._pollingCanceled = true →
      (∀ d, Effect.schedulePollTimer d ∉ (doPollPost s pr).effects) ∧
      (doPollPost s pr).state._pollTimerPending = s._pollTimerPending) := by
  constructor
  · exact fun s h now hc => doPoll_of_canceled s h now hc
  · intro s pr hc
    constructor
    · intro d
      unfold doPollPost
      cases hresp : s._startSessionResponse with
      | none => simp
      | some resp =>
        simp only
        by_cases hrn : (pr.hadRemoteInteraction && !s._hadRemoteInteraction) = true
        · simp only [if_pos hrn]
          split
          · split
            · simp
            · split
              · simp
              · simp
          · split
            · next hsched => simp [hc] at hsched
            · simp
        · simp only [if_neg hrn]
          split
          · split
            · simp
            · split
              · simp
              · simp
          · split
            · next hsched => simp [hc] at hsched
            · simp
    · unfold doPollPost
      cases hresp : s._startSessionResponse with
      | none => rfl
      | some resp =>
        simp only
        by_cases hrn : (pr.hadRemoteInteraction && !s._hadRemoteInteraction) = true
        · simp only [if_pos hrn]
          split
          · split
            · rfl
            · next s4 hset =>
              obtain ⟨x, rfl⟩ := setAccessToken_ok_shape hset
              split
              · rfl
              · next s5 hset2 =>
                obtain ⟨y, rfl⟩ := setRefreshToken_ok_shape hset2
                rfl
          · split
            · next hsched => simp [hc] at hsched
            · rfl
        · simp only [if_neg hrn]
          split
          · split
            · rfl
            · next s4 hset =>
              obtain ⟨x, rfl⟩ := setAccessToken_ok_shape hset
              split
              · rfl
              · next s5 hset2 =>
                obtain ⟨y, rfl⟩ := setRefreshToken_ok_shape hset2
                rfl
          · split
            · next hsched => simp [hc] at hsched
            · rfl

/-- Witness for the amended C7 at a concrete input: a canceled session's
tick is a no-op, and the post-await continuation of an in-flight poll
does not reschedule. -/
theorem doPoll_canceled_behavior_witness :
    doPoll sessionCanceledMidFlight (handlerPolling pollRespEmpty) 100 =
      { state := sessionCanceledMidFlight, effects := [],
        result := .ok () } ∧
    (doPollPost sessionCanceledMidFlight
        pollRespEmpty).state._pollTimerPending =
      sessionCanceledMidFlight._pollTimerPending :=
  ⟨doPoll_canceled_behavior.1 sessionCanceledMidFlight
      (handlerPolling pollRespEmpty) 100 rfl,
    (doPoll_canceled_behavior.2 sessionCanceledMidFlight pollRespEmpty
        rfl).2⟩

/-- C8: on a non-canceled tick at wall-clock time `now`, if the elapsed
time since the recorded first-tick start timestamp (recorded on this tick
if absent) reaches the configured login timeout, the tick emits the
`timeout` notification, issues no poll call, cancels the session (flag
set, no pending timer), and every subsequent tick is a no-op. -/
theorem doPoll_timeout (s : LoginSession) (h : AuthenticationClient)
    (now : Nat) (hc : s._pollingCanceled = false)
    (ht : s.loginTimeout ≤ now - s._pollingStartedTime.getD now) :
    Effect.emitTimeout ∈ (doPoll s h now).effects ∧
    Effect.callPollStatus ∉ (doPoll s h now).effects ∧
    (doPoll s h now).state._pollingCanceled = true ∧
    (doPoll s h now).state._pollTimerPending = false ∧
    (∀ (h2 : AuthenticationClient) (now2 : Nat),
      doPoll (doPoll s h now).state h2 now2 =
        { state := (doPoll s h now).state, effects := [],
          result := .ok () }) := by
  cases hst : s._pollingStartedTime with
  | none =>
    have ht2 : s.loginTimeout ≤ now - now := by simpa [hst] using ht
    have hrun : doPoll s h now =
        { state := (cancelLoginAttempt
            { s with _pollTimerPending := false,
                     _pollingStartedTime := some now }).1
          effects := [Effect.emitPolling, Effect.emitTimeout]
          result := .ok () } := by
      unfold doPoll
      rw [if_neg (by simp [hc])]
      simp only [hst]
      rw [if_pos (by simpa using ht2)]
      rfl
    rw [hrun]
    refine ⟨by simp, by simp, ?_, ?_, ?_⟩
    · simp only [cancelLoginAttempt]
      split <;> rfl
    · simp only [cancelLoginAttempt]
      split <;> rfl
    · intro h2 now2
      refine doPoll_of_canceled _ h2 now2 ?_
      simp only [cancelLoginAttempt]
      split <;> rfl
  | some t0 =>
    have ht2 : s.loginTimeout ≤ now - t0 := by simpa [hst] using ht
    have hrun : doPoll s h now =
        { state := (cancelLoginAttempt
            { s with _pollTimerPending := false }).1
          effects := [Effect.emitTimeout]
          result := .ok () } := by
      unfold doPoll
      rw [if_neg (by simp [hc])]
      simp only [hst]
      rw [if_pos (by simpa using ht2)]
      rfl
    rw [hrun]
    refine ⟨by simp, by simp, ?_, ?_, ?_⟩
    · simp only [cancelLoginAttempt]
      split <;> rfl
    · simp only [cancelLoginAttempt]
      split <;> rfl
    · intro h2 now2
      refine doPoll_of_canceled _ h2 now2 ?_
      simp only [cancelLoginAttempt]
      split <;> rfl

/-- Witness for C8 at a concrete input: a session whose polling started at
time 0 times out on the tick at 30000 ms and cancels itself. -/
theorem doPoll_timeout_witness :
    Effect.emitTimeout ∈
      (doPoll { sessionStartedA with _pollingStartedTime := some 0 }
        (handlerPolling pollRespEmpty) 30000).effects ∧
    Effect.callPollStatus ∉
      (doPoll { sessionStartedA with _pollingStartedTime := some 0 }
        (handlerPolling pollRespEmpty) 30000).effects ∧
    (doPoll { sessionStartedA with _pollingStartedTime := some 0 }
        (handlerPolling pollRespEmpty) 30000).state._pollingCanceled =
      true :=
  have h0 := doPoll_timeout
    { sessionStartedA with _pollingStartedTime := some 0 }
    (handlerPolling pollRespEmpty) 30000 rfl (by decide)
  ⟨h0.1, h0.2.1, h0.2.2.1⟩

/-- C6: when a guard code supplied at session start is submitted for a
single `EmailCode` (resp. `DeviceCode`) challenge and the submit
collaborator rejects, a rejection whose `eresult` is the matching
wrong-code result (`InvalidLoginAuthCode` resp. `TwoFactorCodeMismatch`)
is swallowed and the challenge lands on the caller-facing pending-action
list, while a rejection with any other `eresult` propagates out of
`startWithCredentials` as a fatal error. -/
theorem startWithCredentials_wrongCode (s : LoginSession)
    (h : AuthenticationClient) (d : StartLoginSessionWithCredentialsDetails)
    (chal : GuardChallenge) (e : JsError)
    (hconf : h.startSessionOutcome.allowedConfirmations = [chal])
    (hcode : jsTruthyStr d.steamGuardCode = true)
    (hsubmit : h.submitSteamGuardCodeOutcome = .error e) :
    (chal.type = .EmailCode →
      (e.eresult = some EResult.InvalidLoginAuthCode →
        (startWithCredentials s h d).result =
          .ok { actionRequired := true
                validActions := some [{ type := .EmailCode
                                        detail := jsStrOrNone chal.message }] }) ∧
      (e.eresult ≠ some EResult.InvalidLoginAuthCode →
        (startWithCredentials s h d).result = .error (.handler e))) ∧
    (chal.type = .DeviceCode →
      (e.eresult = some EResult.TwoFactorCodeMismatch →
        (startWithCredentials s h d).result =
          .ok { actionRequired := true
                validActions := some [{ type := .DeviceCode
                                        detail := jsStrOrNone chal.message }] }) ∧
      (e.eresult ≠ some EResult.TwoFactorCodeMismatch →
        (startWithCredentials s h d).result = .error (.handler e))) := by
  constructor
  · intro hET
    constructor
    · intro h65
      unfold startWithCredentials processStartSessionResponse
      simp only [hconf]
      unfold processConfirmationsLoop
      simp only [hET]
      unfold attemptEmailCodeAuth
      simp only [hcode, if_true]
      unfold submitSteamGuardCode
      simp only [hconf, List.any_cons, List.any_nil, hET, hsubmit]
      simp [SessionError.eresultOf, h65, attemptEmailCodeAuthTail,
        processConfirmationsLoop, hconf, hET]
    · intro hne
      unfold startWithCredentials processStartSessionResponse
      simp only [hconf]
      unfold processConfirmationsLoop
      simp only [hET]
      unfold attemptEmailCodeAuth
      simp only [hcode, if_true]
      unfold submitSteamGuardCode
      simp only [hconf, List.any_cons, List.any_nil, hET, hsubmit]
      simp [SessionError.eresultOf, hne]
  · intro hDT
    constructor
    · intro h88
      unfold startWithCredentials processStartSessionResponse
      simp only [hconf]
      unfold processConfirmationsLoop
      simp only [hDT]
      unfold attemptTotpCodeAuth
      simp only [hcode, if_true]
      unfold submitSteamGuardCode
      simp only [hconf, List.any_cons, List.any_nil, hDT, hsubmit]
      simp [SessionError.eresultOf, h88, processConfirmationsLoop]
    · intro hne
      unfold startWithCredentials processStartSessionResponse
      simp only [hconf]
      unfold processConfirmationsLoop
      simp only [hDT]
      unfold attemptTotpCodeAuth
      simp only [hcode, if_true]
      unfold submitSteamGuardCode
      simp only [hconf, List.any_cons, List.any_nil, hDT, hsubmit]
      simp [SessionError.eresultOf, hne]

/-- Witness for C6 at a concrete input: a fresh session started with a
guard code against a single `EmailCode` challenge whose submission is
rejected with `InvalidLoginAuthCode` resolves to an action-required
result listing the `EmailCode` action. -/
theorem startWithCredentials_wrongCode_witness :
    (startWithCredentials baseSession (handlerSubmitErr (some 65) respEmailA)
        detailsWithCode).result =
      .ok { actionRequired := true
            validActions := some
              [{ type := .EmailCode, detail := some "ab at cd.ef" }] } :=
  ((startWithCredentials_wrongCode baseSession
        (handlerSubmitErr (some 65) respEmailA) detailsWithCode
        { type := .EmailCode, message := some "ab at cd.ef" }
        { eresult := some 65 } rfl (by decide) rfl).1 rfl).1 rfl

/-- C2 counterexample: two transfers that both fail, where the second
(submission order) settles first; the race rejects with the second
endpoint's failure, not with the first endpoint's recorded failure as the
claim requires (`rejections` accumulates in completion order). -/
theorem executeTransfers_firstFailure_counterexample :
    (transfersAllFailing.all
      (fun tr => !exceptIsOk (transferResult tr.2))) = true ∧
    transferResult { setCookie := none } = .error .noSetCookieHeader ∧
    executeTransfers transfersAllFailing =
      some (.error TransferError.noSteamLoginSecureCookie) ∧
    TransferError.noSteamLoginSecureCookie ≠
      TransferError.noSetCookieHeader := by
  exact ⟨rfl, rfl, rfl, by decide⟩

/-- C2 amended: if at least one transfer succeeds, the call resolves with
the result of the earliest-settling successful transfer; if every
transfer settles as a failure, the call rejects with the single
earliest-settling failure (completion order, not submission order, and
not an aggregate). -/
theorem executeTransfers_race (transfers : List (Nat × TransferHttpResult)) :
    ((∃ tr ∈ transfers, exceptIsOk (transferResult tr.2) = true) →
      ∃ tr ∈ transfers, exceptIsOk (transferResult tr.2) = true ∧
        executeTransfers transfers = some (transferResult tr.2) ∧
        ∀ tr2 ∈ transfers, exceptIsOk (transferResult tr2.2) = true →
          tr.1 ≤ tr2.1) ∧
    (transfers ≠ [] →
      (∀ tr ∈ transfers, exceptIsOk (transferResult tr.2) = false) →
      ∃ tr ∈ transfers,
        executeTransfers transfers = some (transferResult tr.2) ∧
        ∀ tr2 ∈ transfers, tr.1 ≤ tr2.1) := by
  constructor
  · rintro ⟨tr0, htr0, hok0⟩
    cases hES : earliestSettled exceptIsOk
        (transfers.map (fun tr => (tr.1, transferResult tr.2))) with
    | none =>
      exfalso
      have hf := (earliestSettled_none_iff exceptIsOk _).mp hES
        (tr0.1, transferResult tr0.2) (List.mem_map_of_mem _ htr0)
      simp only at hf
      rw [hok0] at hf
      cases hf
    | some m =>
      obtain ⟨hmem, hok⟩ := earliestSettled_mem _ _ m hES
      obtain ⟨tr, htr, heq⟩ := List.mem_map.mp hmem
      have hsnd : transferResult tr.2 = m.2 := congrArg Prod.snd heq
      have hfst : tr.1 = m.1 := congrArg Prod.fst heq
      refine ⟨tr, htr, ?_, ?_, ?_⟩
      · rw [hsnd]; exact hok
      · unfold executeTransfers promiseAny
        rw [hES, hsnd]
      · intro tr2 htr2 hok2
        have hmin := earliestSettled_min exceptIsOk _ m hES
          (tr2.1, transferResult tr2.2) (List.mem_map_of_mem _ htr2) hok2
        simp only at hmin
        rw [hfst]
        exact hmin
  · intro hne hall
    have hnone : earliestSettled exceptIsOk
        (transfers.map (fun tr => (tr.1, transferResult tr.2))) = none := by
      apply (earliestSettled_none_iff _ _).mpr
      intro y hy
      obtain ⟨tr, htr, heq⟩ := List.mem_map.mp hy
      rw [← heq]
      exact hall tr htr
    obtain ⟨x0, hx0⟩ := List.exists_mem_of_ne_nil transfers hne
    cases hES : earliestSettled (fun r => !exceptIsOk r)
        (transfers.map (fun tr => (tr.1, transferResult tr.2))) with
    | none =>
      exfalso
      have hf := (earliestSettled_none_iff _ _).mp hES
        (x0.1, transferResult x0.2) (List.mem_map_of_mem _ hx0)
      simp [hall x0 hx0] at hf
    | some m =>
      obtain ⟨hmem, hpm⟩ := earliestSettled_mem _ _ m hES
      obtain ⟨tr, htr, heq⟩ := List.mem_map.mp hmem
      have hsnd : transferResult tr.2 = m.2 := congrArg Prod.snd heq
      have hfst : tr.1 = m.1 := congrArg Prod.fst heq
      refine ⟨tr, htr, ?_, ?_⟩
      · unfold executeTransfers promiseAny
        rw [hnone, hES]
        simp [hsnd]
      · intro tr2 htr2
        have hmin := earliestSettled_min _ _ m hES
          (tr2.1, transferResult tr2.2) (List.mem_map_of_mem _ htr2)
          (by simp [hall tr2 htr2])
        simp only at hmin
        rw [hfst]
        exact hmin

/-- Witness for the amended C2 at a concrete input: among three transfers
where only the second succeeds (and settles earliest), the race resolves
with that transfer's cookie set. -/
theorem executeTransfers_race_witness :
    ∃ tr ∈ transfersOneGood, exceptIsOk (transferResult tr.2) = true ∧
      executeTransfers transfersOneGood = some (transferResult tr.2) ∧
      ∀ tr2 ∈ transfersOneGood, exceptIsOk (transferResult tr2.2) = true →
        tr.1 ≤ tr2.1 :=
  (executeTransfers_race transfersOneGood).1
    ⟨(5, { setCookie := some ["steamLoginSecure=tok; Path=/", "x=1"] }),
      by decide, by decide⟩

/-- C3 counterexample: a session already holding an access token for
account A remains invariant-consistent, but `startWithCredentials`
against account B succeeds (single `None` challenge) and installs a
start-session response whose account id differs from the stored token's
subject — the invariant is broken by a public operation. -/
theorem tokenConsistent_startWithCredentials_counterexample :
    tokenConsistent sessionWithAccessA = true ∧
    (startWithCredentials sessionWithAccessA (handlerReturning respNoneB)
        detailsPlain).result =
      .ok { actionRequired := false, validActions := none } ∧
    tokenConsistent (startWithCredentials sessionWithAccessA
        (handlerReturning respNoneB) detailsPlain).state = false := by
  exact ⟨rfl, rfl, rfl⟩

/-- C3 amended: the cross-token consistency invariant is preserved by both
token setters (whether they throw or commit), by every poll tick, and by
`cancelLoginAttempt`; `startWithCredentials` preserves it only under the
extra assumption that the newly returned start-session response is for
the same account as any already-set token — without that assumption it
can break the invariant (see the counterexample). -/
theorem tokenConsistent_preserved :
    (∀ (s : LoginSession) (tok : Option SteamJwt),
      tokenConsistent s = true →
      tokenConsistent (trySetAccessToken s tok).1 = true) ∧
    (∀ (s : LoginSession) (tok : Option SteamJwt),
      tokenConsistent s = true →
      tokenConsistent (trySetRefreshToken s tok).1 = true) ∧
    (∀ (s : LoginSession) (h : AuthenticationClient) (now : Nat),
      tokenConsistent s = true →
      tokenConsistent (doPoll s h now).state = true) ∧
    (∀ s : LoginSession, tokenConsistent s = true →
      tokenConsistent (cancelLoginAttempt s).1 = true) ∧
    (∀ (s : LoginSession) (h : AuthenticationClient)
      (d : StartLoginSessionWithCredentialsDetails),
      tokenConsistent s = true →
      (∀ a, s._accessToken = some a →
        a.sub = h.startSessionOutcome.steamId) →
      (∀ r, s._refreshToken = some r →
        r.sub = h.startSessionOutcome.steamId) →
      tokenConsistent (startWithCredentials s h d).state = true) := by
  refine ⟨?_, ?_, ?_, ?_, ?_⟩
  · intro s tok hs
    unfold trySetAccessToken
    cases hA : setAccessToken s tok with
    | error e => simpa using hs
    | ok s2 => simpa using tokenConsistent_setAccessToken hs hA
  · intro s tok hs
    unfold trySetRefreshToken
    cases hA : setRefreshToken s tok with
    | error e => simpa using hs
    | ok s2 => simpa using tokenConsistent_setRefreshToken hs hA
  · exact fun s h now hs => tokenConsistent_doPoll s h now hs
  · intro s hs
    refine tokenConsistent_of_congr ?_ ?_ ?_ hs <;>
      (simp only [cancelLoginAttempt]; split <;> rfl)
  · intro s h d hs hacc href
    have hstate : (startWithCredentials s h d).state =
        { s with _hadRemoteInteraction := false
                 _steamGuardCode := d.steamGuardCode
                 _steamGuardMachineToken := d.steamGuardMachineToken
                 _startSessionResponse := some h.startSessionOutcome
                 _pollingCanceled := false } := by
      unfold startWithCredentials processStartSessionResponse
      rfl
    rw [hstate]
    unfold tokenConsistent
    show tokenSubsConsistent s._accessToken s._refreshToken
      (some h.startSessionOutcome.steamId) = true
    cases hax : s._accessToken with
    | none =>
      cases hrx : s._refreshToken with
      | none => simp [tokenSubsConsistent]
      | some r => simp [tokenSubsConsistent, href r hrx]
    | some a =>
      cases hrx : s._refreshToken with
      | none => simp [tokenSubsConsistent, hacc a hax]
      | some r => simp [tokenSubsConsistent, hacc a hax, href r hrx]

/-- Witness for the amended C3 at a concrete input: starting a fresh
session (no tokens set) leaves the invariant intact. -/
theorem tokenConsistent_preserved_witness :
    tokenConsistent (startWithCredentials baseSession
        (handlerReturning respNoneB) detailsPlain).state = true :=
  tokenConsistent_preserved.2.2.2.2 baseSession (handlerReturning respNoneB)
    detailsPlain rfl (fun _ ha => Option.noConfusion ha)
    (fun _ hr => Option.noConfusion hr)

end SteamSession
